import Mathlib

/-!
Verification of the EagleEye break-reminder scheduler core
(`internal/core/timekeeper/events.go`, `internal/core/model/config.go`).

Durations and instants (`time.Duration`, `time.Time`) are modelled as `Int`
(nanosecond counts; the zero `time.Time` is `none`). The idle checker is an
oracle `Nat → IdleResult` indexed by the number of queries performed so far,
passed to `tick` from outside (a `none` checker models a nil `idleChecker`
field). Events are collected in the order `emitLocked` is called; the
per-subscriber non-blocking drop is outside the scope of these claims.
Progress fractions are modelled over `Rat`, mirroring the exact arithmetic
structure of the `float64` code (the clamping logic is value-exact).
-/

namespace EagleEye

/-- `model.BreakConfig`: a recurring break schedule. -/
structure BreakConfig where
  interval : Int
  duration : Int
  enabled : Bool
deriving DecidableEq

/-- `model.LongBreakConfig`: a break schedule with strict mode (embedded
`BreakConfig` flattened into fields). -/
structure LongBreakConfig where
  interval : Int
  duration : Int
  enabled : Bool
  strictMode : Bool
deriving DecidableEq

/-- `model.TimeKeeperConfig`: runtime settings for the TimeKeeper. -/
structure TimeKeeperConfig where
  short : BreakConfig
  long : LongBreakConfig
  idleResetEnabled : Bool
  idleResetAfter : Int
  idleCheckInterval : Int
deriving DecidableEq

/-- `timekeeper.State`. -/
inductive State where
  | work
  | shortBreak
  | longBreak
  | paused
deriving DecidableEq

/-- `timekeeper.EventType`. -/
inductive EventType where
  | stateChange
  | progress
  | idleReset
  | idleError
deriving DecidableEq

/-- `timekeeper.Event` (the `At` timestamp is dropped: no claim observes it;
unset fields default to Go zero values). -/
structure Event where
  type : EventType
  state : State
  remaining : Int := 0
  progress : Rat := 0
  strictMode : Bool := false
  message : String := ""
deriving DecidableEq

/-- Result of one `IdleChecker.IdleDuration` call: a duration, the sticky
`ErrIdleUnsupported`, or some other error. -/
inductive IdleResult where
  | ok (d : Int)
  | errUnsupported
  | errOther (msg : String)
deriving DecidableEq

/-- The scheduler state (`timekeeper.TimeKeeper`): mutex, channels and the
goroutine are concurrency plumbing; `idleCalls` is a ghost counter of idle
queries performed. -/
structure TimeKeeper where
  config : TimeKeeperConfig
  tickInterval : Int
  state : State
  previousState : State
  remaining : Int
  nextShort : Int
  nextLong : Int
  lastIdleCheck : Option Int
  running : Bool
  paused : Bool
  lastProgressSent : Option Int
  idleCalls : Nat
deriving DecidableEq

/-- `resetWorkTimersLocked`. -/
def TimeKeeper.resetWorkTimers (kp : TimeKeeper) : TimeKeeper :=
  { kp with nextShort := kp.config.short.interval, nextLong := kp.config.long.interval }

/-- `timekeeper.New` (with `options.TickInterval`; `time.Second` and
`5 * time.Second` in nanoseconds). -/
def TimeKeeper.new (config : TimeKeeperConfig) (tickInterval : Int) : TimeKeeper :=
  let tickInterval := if tickInterval ≤ 0 then 1000000000 else tickInterval
  let config :=
    if config.idleCheckInterval ≤ 0 then { config with idleCheckInterval := 5000000000 }
    else config
  TimeKeeper.resetWorkTimers
    { config := config
      tickInterval := tickInterval
      state := State.work
      previousState := State.work
      remaining := 0
      nextShort := 0
      nextLong := 0
      lastIdleCheck := none
      running := false
      paused := false
      lastProgressSent := none
      idleCalls := 0 }

/-- `TimeKeeper.Start` (the spawned goroutine is modelled by delivering
`tick` commands explicitly). -/
def TimeKeeper.start (kp : TimeKeeper) : TimeKeeper × List Event :=
  if kp.running = true then (kp, [])
  else
    ({ kp with running := true, paused := false, state := State.work,
               previousState := State.work, remaining := 0, lastIdleCheck := none },
     [{ type := EventType.stateChange, state := State.work }])

/-- `TimeKeeper.Stop` (channel closing is observer plumbing, not modelled). -/
def TimeKeeper.stop (kp : TimeKeeper) : TimeKeeper × List Event :=
  if kp.running = false then (kp, [])
  else ({ kp with running := false }, [])

/-- `TimeKeeper.Pause`. -/
def TimeKeeper.pause (kp : TimeKeeper) : TimeKeeper × List Event :=
  if kp.paused = true then (kp, [])
  else
    ({ kp with paused := true, previousState := kp.state, state := State.paused },
     [{ type := EventType.stateChange, state := State.paused }])

/-- `TimeKeeper.Resume`. -/
def TimeKeeper.resume (kp : TimeKeeper) : TimeKeeper × List Event :=
  if kp.paused = false then (kp, [])
  else
    ({ kp with paused := false, state := kp.previousState },
     [{ type := EventType.stateChange, state := kp.previousState }])

/-- `TimeKeeper.UpdateConfig`. -/
def TimeKeeper.updateConfig (kp : TimeKeeper) (config : TimeKeeperConfig) :
    TimeKeeper × List Event :=
  let config :=
    if config.idleCheckInterval ≤ 0 then { config with idleCheckInterval := 5000000000 }
    else config
  (TimeKeeper.resetWorkTimers { kp with config := config }, [])

/-- `TimeKeeper.SkipBreak`. -/
def TimeKeeper.skipBreak (kp : TimeKeeper) : TimeKeeper × List Event :=
  if kp.state ≠ State.shortBreak ∧ kp.state ≠ State.longBreak then (kp, [])
  else
    (TimeKeeper.resetWorkTimers { kp with state := State.work, remaining := 0 },
     [{ type := EventType.stateChange, state := State.work }])

/-- `enterBreakLocked`. -/
def TimeKeeper.enterBreak (kp : TimeKeeper) (state : State) : TimeKeeper × List Event :=
  let kp :=
    if state = State.longBreak then
      TimeKeeper.resetWorkTimers
        { kp with state := state, remaining := kp.config.long.duration }
    else
      { kp with state := state, remaining := kp.config.short.duration,
                nextShort := kp.config.short.interval }
  (kp,
   [{ type := EventType.stateChange, state := state, remaining := kp.remaining,
      strictMode := if state = State.longBreak then kp.config.long.strictMode else false }])

/-- `TimeKeeper.ForceBreak`. -/
def TimeKeeper.forceBreak (kp : TimeKeeper) (state : State) : TimeKeeper × List Event :=
  if state ≠ State.shortBreak ∧ state ≠ State.longBreak then (kp, [])
  else if kp.running = false ∨ kp.paused = true then (kp, [])
  else kp.enterBreak state

/-- `TimeKeeper.ResetForIdle`. -/
def TimeKeeper.resetForIdle (kp : TimeKeeper) : TimeKeeper × List Event :=
  (kp.resetWorkTimers, [])

/-- The throttle test of `handleIdleCheckLocked`: proceed when
`lastIdleCheck.IsZero()` or `now.Sub(lastIdleCheck) ≥ IdleCheckInterval`. -/
def TimeKeeper.idleCheckDue (kp : TimeKeeper) (now : Int) : Bool :=
  match kp.lastIdleCheck with
  | none => true
  | some t => decide (kp.config.idleCheckInterval ≤ now - t)

/-- `handleIdleCheckLocked`. The checker oracle maps the invocation index
(ghost `idleCalls`) to that call's result; `none` models a nil checker. -/
def TimeKeeper.handleIdleCheck (kp : TimeKeeper) (checker : Option (Nat → IdleResult))
    (now : Int) : TimeKeeper × List Event :=
  match checker with
  | none => (kp, [])
  | some query =>
    if kp.config.idleResetEnabled = false then (kp, [])
    else if kp.idleCheckDue now = false then (kp, [])
    else
      let callIndex := kp.idleCalls
      let kp := { kp with lastIdleCheck := some now, idleCalls := callIndex + 1 }
      match query callIndex with
      | IdleResult.errUnsupported =>
        ({ kp with config := { kp.config with idleResetEnabled := false } },
         [{ type := EventType.idleError, state := kp.state,
            message := "idle detection unsupported" }])
      | IdleResult.errOther msg =>
        (kp, [{ type := EventType.idleError, state := kp.state, message := msg }])
      | IdleResult.ok d =>
        if kp.config.idleResetAfter ≤ d then
          (kp.resetWorkTimers,
           [{ type := EventType.idleReset, state := kp.state, message := "idle reset" }])
        else (kp, [])

/-- The short-break half of `advanceWorkLocked`. -/
def TimeKeeper.advanceShort (kp : TimeKeeper) (delta : Int) : TimeKeeper × List Event :=
  if kp.config.short.enabled = true then
    let kp := { kp with nextShort := kp.nextShort - delta }
    if kp.nextShort ≤ 0 then kp.enterBreak State.shortBreak
    else (kp, [])
  else (kp, [])

/-- `advanceWorkLocked`: the long-break check runs first and returns early
when it fires. -/
def TimeKeeper.advanceWork (kp : TimeKeeper) (delta : Int) : TimeKeeper × List Event :=
  if kp.config.long.enabled = true then
    let kp := { kp with nextLong := kp.nextLong - delta }
    if kp.nextLong ≤ 0 then kp.enterBreak State.longBreak
    else kp.advanceShort delta
  else kp.advanceShort delta

/-- The total break duration for the current state (`breakProgressLocked`'s
switch). -/
def TimeKeeper.breakDuration (kp : TimeKeeper) : Int :=
  match kp.state with
  | State.shortBreak => kp.config.short.duration
  | State.longBreak => kp.config.long.duration
  | _ => 0

/-- `breakProgressLocked`. -/
def TimeKeeper.breakProgress (kp : TimeKeeper) : Rat :=
  let total := kp.breakDuration
  if total ≤ 0 then 1
  else
    let progress : Rat := ((total - kp.remaining : Int) : Rat) / ((total : Int) : Rat)
    if progress < 0 then 0
    else if 1 < progress then 1
    else progress

/-- `advanceBreakLocked`. -/
def TimeKeeper.advanceBreak (kp : TimeKeeper) (delta : Int) : TimeKeeper × List Event :=
  let kp := { kp with remaining := kp.remaining - delta }
  if 0 < kp.remaining then
    (kp,
     [{ type := EventType.progress, state := kp.state, remaining := kp.remaining,
        progress := kp.breakProgress,
        strictMode := if kp.state = State.longBreak then kp.config.long.strictMode
                      else false }])
  else
    (TimeKeeper.resetWorkTimers { kp with state := State.work, remaining := 0 },
     [{ type := EventType.stateChange, state := State.work }])

/-- `nextBreakRemainingLocked`. -/
def TimeKeeper.nextBreakRemaining (kp : TimeKeeper) : Int :=
  if kp.config.long.enabled = true ∧ kp.nextLong < kp.nextShort then kp.nextLong
  else if kp.config.short.enabled = true then kp.nextShort
  else 0

/-- `workProgressLocked`. -/
def TimeKeeper.workProgress (kp : TimeKeeper) : Rat :=
  if kp.config.long.enabled = true ∧ 0 < kp.config.long.interval then
    ((kp.config.long.interval - kp.nextLong : Int) : Rat) /
      ((kp.config.long.interval : Int) : Rat)
  else if kp.config.short.enabled = true ∧ 0 < kp.config.short.interval then
    ((kp.config.short.interval - kp.nextShort : Int) : Rat) /
      ((kp.config.short.interval : Int) : Rat)
  else 0

/-- The throttle test of `maybeEmitProgressLocked`. -/
def TimeKeeper.progressDue (kp : TimeKeeper) (now : Int) : Bool :=
  match kp.lastProgressSent with
  | none => true
  | some t => decide (kp.tickInterval ≤ now - t)

/-- `maybeEmitProgressLocked`. -/
def TimeKeeper.maybeEmitProgress (kp : TimeKeeper) (now : Int) : TimeKeeper × List Event :=
  if kp.progressDue now = true then
    ({ kp with lastProgressSent := some now },
     [{ type := EventType.progress, state := kp.state,
        remaining := kp.nextBreakRemaining, progress := kp.workProgress }])
  else (kp, [])

/-- `TimeKeeper.tick`: one delivery from the tick loop. -/
def TimeKeeper.tick (kp : TimeKeeper) (checker : Option (Nat → IdleResult)) (now : Int) :
    TimeKeeper × List Event :=
  if kp.running = false ∨ kp.paused = true then (kp, [])
  else if kp.state = State.work then
    let r1 := kp.handleIdleCheck checker now
    let r2 := r1.fst.advanceWork r1.fst.tickInterval
    let r3 := r2.fst.maybeEmitProgress now
    (r3.fst, r1.snd ++ r2.snd ++ r3.snd)
  else kp.advanceBreak kp.tickInterval

/-- External stimuli a run is made of. -/
inductive Command where
  | tickAt (now : Int)
  | pauseCmd
  | resumeCmd
  | skipBreakCmd
  | forceBreakCmd (s : State)
  | resetForIdleCmd
  | startCmd
  | stopCmd
  | updateConfigCmd (c : TimeKeeperConfig)
deriving DecidableEq

/-- Dispatch one command against the keeper. -/
def TimeKeeper.step (kp : TimeKeeper) (checker : Option (Nat → IdleResult)) :
    Command → TimeKeeper × List Event
  | Command.tickAt now => kp.tick checker now
  | Command.pauseCmd => kp.pause
  | Command.resumeCmd => kp.resume
  | Command.skipBreakCmd => kp.skipBreak
  | Command.forceBreakCmd s => kp.forceBreak s
  | Command.resetForIdleCmd => kp.resetForIdle
  | Command.startCmd => kp.start
  | Command.stopCmd => kp.stop
  | Command.updateConfigCmd c => kp.updateConfig c

/-- Run a list of commands, accumulating every emitted event. -/
def TimeKeeper.runCmds (kp : TimeKeeper) (checker : Option (Nat → IdleResult)) :
    List Command → TimeKeeper × List Event
  | [] => (kp, [])
  | c :: cs =>
    let r := kp.step checker c
    let rest := r.fst.runCmds checker cs
    (rest.fst, r.snd ++ rest.snd)

/-- Does a command replace the configuration? -/
def Command.isUpdateConfig : Command → Bool
  | Command.updateConfigCmd _ => true
  | _ => false

/-- Is a command `Start`? -/
def Command.isStartCmd : Command → Bool
  | Command.startCmd => true
  | _ => false

/-- Number of idle-error events in an event list. -/
def countIdleErrors (es : List Event) : Nat :=
  es.countP fun e => decide (e.type = EventType.idleError)

/-- The spec's clamped break fraction, written from its words:
`(duration - remaining) / duration` clamped to `[0,1]`, and `1` when the
duration is non-positive. Compared against `breakProgress` from the code. -/
def clampedFraction (total r : Int) : Rat :=
  if total ≤ 0 then 1
  else max 0 (min 1 (((total - r : Int) : Rat) / ((total : Int) : Rat)))

/-! Concrete fixtures, built through the public API so every scenario is
reachable. Small numbers stand for durations (one unit per tick). -/

/-- Both breaks enabled, idle reset off, long break not strict. -/
def cfgA : TimeKeeperConfig :=
  { short := { interval := 5, duration := 2, enabled := true }
    long := { interval := 9, duration := 4, enabled := true, strictMode := false }
    idleResetEnabled := false
    idleResetAfter := 100
    idleCheckInterval := 1 }

/-- Like `cfgA` but the long break is strict. -/
def cfgStrict : TimeKeeperConfig :=
  { short := { interval := 5, duration := 2, enabled := true }
    long := { interval := 9, duration := 4, enabled := true, strictMode := true }
    idleResetEnabled := false
    idleResetAfter := 100
    idleCheckInterval := 1 }

/-- Short break much nearer than the long one. -/
def cfgNear : TimeKeeperConfig :=
  { short := { interval := 3, duration := 2, enabled := true }
    long := { interval := 100, duration := 5, enabled := true, strictMode := false }
    idleResetEnabled := false
    idleResetAfter := 100
    idleCheckInterval := 1 }

/-- Like `cfgA` with a shorter short-break interval (for `UpdateConfig`). -/
def cfgSmall : TimeKeeperConfig :=
  { short := { interval := 3, duration := 2, enabled := true }
    long := { interval := 9, duration := 4, enabled := true, strictMode := false }
    idleResetEnabled := false
    idleResetAfter := 100
    idleCheckInterval := 1 }

/-- Idle reset armed. -/
def cfgIdle : TimeKeeperConfig :=
  { short := { interval := 5, duration := 2, enabled := true }
    long := { interval := 9, duration := 4, enabled := true, strictMode := false }
    idleResetEnabled := true
    idleResetAfter := 100
    idleCheckInterval := 1 }

/-- A freshly constructed keeper (not started). -/
def kpFresh : TimeKeeper := TimeKeeper.new cfgA 1

/-- A started keeper in `Work`. -/
def kpRun : TimeKeeper := (kpFresh.start).fst

/-- A running keeper in `LongBreak`. -/
def kpLong : TimeKeeper := (kpRun.forceBreak State.longBreak).fst

/-- A running keeper in a strict `LongBreak`. -/
def kpStrictLong : TimeKeeper :=
  ((((TimeKeeper.new cfgStrict 1).start).fst).forceBreak State.longBreak).fst

/-- A paused keeper. -/
def kpPausedW : TimeKeeper := (kpRun.pause).fst

/-- A started keeper under `cfgNear`, in `Work`. -/
def kpNear : TimeKeeper := (((TimeKeeper.new cfgNear 1).start)).fst

/-- Only the short break enabled. -/
def cfgShortOnly : TimeKeeperConfig :=
  { short := { interval := 3, duration := 2, enabled := true }
    long := { interval := 100, duration := 5, enabled := false, strictMode := false }
    idleResetEnabled := false
    idleResetAfter := 100
    idleCheckInterval := 1 }

/-- Only the long break enabled. -/
def cfgLongOnly : TimeKeeperConfig :=
  { short := { interval := 5, duration := 2, enabled := false }
    long := { interval := 100, duration := 5, enabled := true, strictMode := false }
    idleResetEnabled := false
    idleResetAfter := 100
    idleCheckInterval := 1 }

/-- A started keeper with only the short break enabled. -/
def kpShortOnly : TimeKeeper := (((TimeKeeper.new cfgShortOnly 1).start)).fst

/-- A started keeper with only the long break enabled. -/
def kpLongOnly : TimeKeeper := (((TimeKeeper.new cfgLongOnly 1).start)).fst

/-- A started keeper with idle reset armed. -/
def kpIdle : TimeKeeper := (((TimeKeeper.new cfgIdle 1).start)).fst

/-- An idle checker whose every call reports the permanent unsupported
failure. -/
def alwaysUnsupported : Nat → IdleResult := fun _ => IdleResult.errUnsupported

/-- The long break fires on the very first tick. -/
def cfgLongSoon : TimeKeeperConfig :=
  { short := { interval := 5, duration := 2, enabled := true }
    long := { interval := 1, duration := 4, enabled := true, strictMode := false }
    idleResetEnabled := false
    idleResetAfter := 100
    idleCheckInterval := 1 }

/-- A started keeper whose long-break countdown crosses zero on the next
tick. -/
def kpEdge : TimeKeeper := ((TimeKeeper.new cfgLongSoon 1).start).fst

/-- A running keeper inside a `ShortBreak` with time left. -/
def kpShortB : TimeKeeper := (kpRun.forceBreak State.shortBreak).fst

/-! Frame and shape lemmas about the individual operations. -/

@[simp] lemma enterBreak_state (kp : TimeKeeper) (s : State) :
    (kp.enterBreak s).fst.state = s := by
  simp only [TimeKeeper.enterBreak]
  split <;> rfl

@[simp] lemma enterBreak_config (kp : TimeKeeper) (s : State) :
    (kp.enterBreak s).fst.config = kp.config := by
  simp only [TimeKeeper.enterBreak]
  split <;> rfl

@[simp] lemma enterBreak_idleCalls (kp : TimeKeeper) (s : State) :
    (kp.enterBreak s).fst.idleCalls = kp.idleCalls := by
  simp only [TimeKeeper.enterBreak]
  split <;> rfl

@[simp] lemma enterBreak_running (kp : TimeKeeper) (s : State) :
    (kp.enterBreak s).fst.running = kp.running := by
  simp only [TimeKeeper.enterBreak]
  split <;> rfl

@[simp] lemma enterBreak_paused (kp : TimeKeeper) (s : State) :
    (kp.enterBreak s).fst.paused = kp.paused := by
  simp only [TimeKeeper.enterBreak]
  split <;> rfl

lemma enterBreak_remaining (kp : TimeKeeper) (s : State) :
    (kp.enterBreak s).fst.remaining =
      if s = State.longBreak then kp.config.long.duration
      else kp.config.short.duration := by
  simp only [TimeKeeper.enterBreak]
  split <;> simp_all [TimeKeeper.resetWorkTimers]

lemma enterBreak_snd_types (kp : TimeKeeper) (s : State) :
    ∀ e ∈ (kp.enterBreak s).snd, e.type = EventType.stateChange := by
  simp only [TimeKeeper.enterBreak]
  split <;> simp

@[simp] lemma advanceShort_config (kp : TimeKeeper) (d : Int) :
    (kp.advanceShort d).fst.config = kp.config := by
  simp only [TimeKeeper.advanceShort]
  repeat' split
  all_goals simp

@[simp] lemma advanceShort_idleCalls (kp : TimeKeeper) (d : Int) :
    (kp.advanceShort d).fst.idleCalls = kp.idleCalls := by
  simp only [TimeKeeper.advanceShort]
  repeat' split
  all_goals simp

lemma advanceShort_snd_types (kp : TimeKeeper) (d : Int) :
    ∀ e ∈ (kp.advanceShort d).snd, e.type = EventType.stateChange := by
  simp only [TimeKeeper.advanceShort]
  repeat' split
  · exact enterBreak_snd_types _ _
  all_goals simp

@[simp] lemma advanceWork_config (kp : TimeKeeper) (d : Int) :
    (kp.advanceWork d).fst.config = kp.config := by
  simp only [TimeKeeper.advanceWork]
  repeat' split
  all_goals simp

@[simp] lemma advanceWork_idleCalls (kp : TimeKeeper) (d : Int) :
    (kp.advanceWork d).fst.idleCalls = kp.idleCalls := by
  simp only [TimeKeeper.advanceWork]
  repeat' split
  all_goals simp

lemma advanceWork_snd_types (kp : TimeKeeper) (d : Int) :
    ∀ e ∈ (kp.advanceWork d).snd, e.type = EventType.stateChange := by
  simp only [TimeKeeper.advanceWork]
  repeat' split
  · exact enterBreak_snd_types _ _
  · exact advanceShort_snd_types _ _
  · exact advanceShort_snd_types _ _

@[simp] lemma advanceBreak_config (kp : TimeKeeper) (d : Int) :
    (kp.advanceBreak d).fst.config = kp.config := by
  simp only [TimeKeeper.advanceBreak]
  split <;> simp [TimeKeeper.resetWorkTimers]

@[simp] lemma advanceBreak_idleCalls (kp : TimeKeeper) (d : Int) :
    (kp.advanceBreak d).fst.idleCalls = kp.idleCalls := by
  simp only [TimeKeeper.advanceBreak]
  split <;> simp [TimeKeeper.resetWorkTimers]

lemma advanceBreak_snd_types (kp : TimeKeeper) (d : Int) :
    ∀ e ∈ (kp.advanceBreak d).snd,
      e.type = EventType.progress ∨ e.type = EventType.stateChange := by
  simp only [TimeKeeper.advanceBreak]
  split <;> simp

lemma advanceBreak_remaining_nonneg (kp : TimeKeeper) (d : Int) :
    0 ≤ (kp.advanceBreak d).fst.remaining := by
  simp only [TimeKeeper.advanceBreak]
  split <;> simp_all [TimeKeeper.resetWorkTimers]
  omega

@[simp] lemma maybeEmitProgress_state (kp : TimeKeeper) (now : Int) :
    (kp.maybeEmitProgress now).fst.state = kp.state := by
  simp only [TimeKeeper.maybeEmitProgress]
  split <;> rfl

@[simp] lemma maybeEmitProgress_remaining (kp : TimeKeeper) (now : Int) :
    (kp.maybeEmitProgress now).fst.remaining = kp.remaining := by
  simp only [TimeKeeper.maybeEmitProgress]
  split <;> rfl

@[simp] lemma maybeEmitProgress_nextShort (kp : TimeKeeper) (now : Int) :
    (kp.maybeEmitProgress now).fst.nextShort = kp.nextShort := by
  simp only [TimeKeeper.maybeEmitProgress]
  split <;> rfl

@[simp] lemma maybeEmitProgress_nextLong (kp : TimeKeeper) (now : Int) :
    (kp.maybeEmitProgress now).fst.nextLong = kp.nextLong := by
  simp only [TimeKeeper.maybeEmitProgress]
  split <;> rfl

@[simp] lemma maybeEmitProgress_config (kp : TimeKeeper) (now : Int) :
    (kp.maybeEmitProgress now).fst.config = kp.config := by
  simp only [TimeKeeper.maybeEmitProgress]
  split <;> rfl

@[simp] lemma maybeEmitProgress_idleCalls (kp : TimeKeeper) (now : Int) :
    (kp.maybeEmitProgress now).fst.idleCalls = kp.idleCalls := by
  simp only [TimeKeeper.maybeEmitProgress]
  split <;> rfl

@[simp] lemma maybeEmitProgress_running (kp : TimeKeeper) (now : Int) :
    (kp.maybeEmitProgress now).fst.running = kp.running := by
  simp only [TimeKeeper.maybeEmitProgress]
  split <;> rfl

@[simp] lemma maybeEmitProgress_paused (kp : TimeKeeper) (now : Int) :
    (kp.maybeEmitProgress now).fst.paused = kp.paused := by
  simp only [TimeKeeper.maybeEmitProgress]
  split <;> rfl

lemma maybeEmitProgress_snd_types (kp : TimeKeeper) (now : Int) :
    ∀ e ∈ (kp.maybeEmitProgress now).snd, e.type = EventType.progress := by
  simp only [TimeKeeper.maybeEmitProgress]
  split <;> simp

lemma handleIdleCheck_none (kp : TimeKeeper) (now : Int) :
    kp.handleIdleCheck none now = (kp, []) := rfl

lemma handleIdleCheck_latched (kp : TimeKeeper) (checker : Option (Nat → IdleResult))
    (now : Int) (h : kp.config.idleResetEnabled = false) :
    kp.handleIdleCheck checker now = (kp, []) := by
  cases checker with
  | none => rfl
  | some q => simp [TimeKeeper.handleIdleCheck, h]

@[simp] lemma handleIdleCheck_remaining (kp : TimeKeeper)
    (checker : Option (Nat → IdleResult)) (now : Int) :
    (kp.handleIdleCheck checker now).fst.remaining = kp.remaining := by
  cases checker with
  | none => rfl
  | some q =>
    simp only [TimeKeeper.handleIdleCheck]
    repeat' split
    all_goals simp [TimeKeeper.resetWorkTimers]

@[simp] lemma handleIdleCheck_state (kp : TimeKeeper)
    (checker : Option (Nat → IdleResult)) (now : Int) :
    (kp.handleIdleCheck checker now).fst.state = kp.state := by
  cases checker with
  | none => rfl
  | some q =>
    simp only [TimeKeeper.handleIdleCheck]
    repeat' split
    all_goals simp [TimeKeeper.resetWorkTimers]

@[simp] lemma handleIdleCheck_tickInterval (kp : TimeKeeper)
    (checker : Option (Nat → IdleResult)) (now : Int) :
    (kp.handleIdleCheck checker now).fst.tickInterval = kp.tickInterval := by
  cases checker with
  | none => rfl
  | some q =>
    simp only [TimeKeeper.handleIdleCheck]
    repeat' split
    all_goals simp [TimeKeeper.resetWorkTimers]

@[simp] lemma handleIdleCheck_config_short (kp : TimeKeeper)
    (checker : Option (Nat → IdleResult)) (now : Int) :
    (kp.handleIdleCheck checker now).fst.config.short = kp.config.short := by
  cases checker with
  | none => rfl
  | some q =>
    simp only [TimeKeeper.handleIdleCheck]
    repeat' split
    all_goals simp [TimeKeeper.resetWorkTimers]

@[simp] lemma handleIdleCheck_config_long (kp : TimeKeeper)
    (checker : Option (Nat → IdleResult)) (now : Int) :
    (kp.handleIdleCheck checker now).fst.config.long = kp.config.long := by
  cases checker with
  | none => rfl
  | some q =>
    simp only [TimeKeeper.handleIdleCheck]
    repeat' split
    all_goals simp [TimeKeeper.resetWorkTimers]

/-- The clamp the code writes with two `if`s equals `max 0 (min 1 ·)`. -/
lemma ite_clamp_eq_max_min (p : Rat) :
    (if p < 0 then 0 else if 1 < p then 1 else p) = max 0 (min 1 p) := by
  rcases lt_or_le p 0 with hp | hp
  · rw [if_pos hp, min_eq_right (le_trans hp.le zero_le_one), max_eq_left hp.le]
  · rw [if_neg (not_lt.mpr hp)]
    rcases lt_or_le 1 p with hq | hq
    · rw [if_pos hq, min_eq_left hq.le, max_eq_right zero_le_one]
    · rw [if_neg (not_lt.mpr hq), min_eq_right hq, max_eq_right hp]

/-- `breakProgressLocked` computes exactly the spec's clamped fraction. -/
lemma breakProgress_eq_clampedFraction (kp : TimeKeeper) :
    kp.breakProgress = clampedFraction kp.breakDuration kp.remaining := by
  unfold TimeKeeper.breakProgress clampedFraction
  by_cases h : kp.breakDuration ≤ 0
  · simp [h]
  · simp only [if_neg h]
    exact ite_clamp_eq_max_min _

lemma clampedFraction_nonneg (total r : Int) : 0 ≤ clampedFraction total r := by
  unfold clampedFraction
  split
  · norm_num
  · exact le_max_left 0 _

lemma clampedFraction_le_one (total r : Int) : clampedFraction total r ≤ 1 := by
  unfold clampedFraction
  split
  · norm_num
  · exact max_le zero_le_one (min_le_left 1 _)

lemma clampedFraction_of_nonpos (total r : Int) (h : total ≤ 0) :
    clampedFraction total r = 1 := by
  unfold clampedFraction
  exact if_pos h

/-- C10: `ResetForIdle` sets both countdowns to the configured intervals and
changes nothing else — state, previousState, remaining, running and paused
are untouched and no event is emitted. -/
theorem claim_C10_resetForIdle_frame (kp : TimeKeeper) :
    (kp.resetForIdle).fst.nextShort = kp.config.short.interval ∧
    (kp.resetForIdle).fst.nextLong = kp.config.long.interval ∧
    (kp.resetForIdle).fst.state = kp.state ∧
    (kp.resetForIdle).fst.previousState = kp.previousState ∧
    (kp.resetForIdle).fst.remaining = kp.remaining ∧
    (kp.resetForIdle).fst.running = kp.running ∧
    (kp.resetForIdle).fst.paused = kp.paused ∧
    (kp.resetForIdle).snd = [] := by
  simp [TimeKeeper.resetForIdle, TimeKeeper.resetWorkTimers]

/-- C7 counterexample: a freshly constructed, not-running keeper is not
paused, yet `Pause` is not a no-op on it — it switches the state to `Paused`
and emits an event, refuting "for every not-running scheduler, Pause is a
no-op". -/
theorem claim_C7_counterexample :
    kpFresh.running = false ∧ kpFresh.paused = false ∧
    kpFresh.state = State.work ∧
    (kpFresh.pause).fst.state = State.paused ∧
    (kpFresh.pause).snd ≠ [] := by decide

/-- C7 amended: each command is a complete no-op (state unchanged, no event)
exactly under its own code guard — `Pause` when already paused (running is
not checked), `Resume` when not paused, `SkipBreak` when not in a break
state, `ForceBreak` when the kind is invalid or the keeper is not running or
paused. -/
theorem claim_C7_noop_guards (kp : TimeKeeper) (s : State) :
    (kp.paused = true → kp.pause = (kp, [])) ∧
    (kp.paused = false → kp.resume = (kp, [])) ∧
    (kp.state ≠ State.shortBreak → kp.state ≠ State.longBreak →
      kp.skipBreak = (kp, [])) ∧
    (s ≠ State.shortBreak → s ≠ State.longBreak → kp.forceBreak s = (kp, [])) ∧
    (kp.running = false ∨ kp.paused = true → ∀ t, kp.forceBreak t = (kp, [])) := by
  refine ⟨fun h => ?_, fun h => ?_, fun h1 h2 => ?_, fun h1 h2 => ?_, fun h t => ?_⟩
  · simp [TimeKeeper.pause, h]
  · simp [TimeKeeper.resume, h]
  · simp [TimeKeeper.skipBreak, h1, h2]
  · simp [TimeKeeper.forceBreak, h1, h2]
  · by_cases hv : t ≠ State.shortBreak ∧ t ≠ State.longBreak
    · simp [TimeKeeper.forceBreak, hv]
    · simp only [TimeKeeper.forceBreak, if_neg hv, if_pos h]

/-- C7 witness: each guard discharged at a concrete keeper — a paused one
for `Pause`/`ForceBreak`, a running Work one for `Resume`/`SkipBreak`/invalid
kind, and a fresh not-running one for `ForceBreak`. -/
theorem claim_C7_noop_guards_witness :
    kpPausedW.pause = (kpPausedW, []) ∧
    kpRun.resume = (kpRun, []) ∧
    kpRun.skipBreak = (kpRun, []) ∧
    kpRun.forceBreak State.work = (kpRun, []) ∧
    kpFresh.forceBreak State.shortBreak = (kpFresh, []) :=
  ⟨(claim_C7_noop_guards kpPausedW State.work).1 (by decide),
   (claim_C7_noop_guards kpRun State.work).2.1 (by decide),
   (claim_C7_noop_guards kpRun State.work).2.2.1 (by decide) (by decide),
   (claim_C7_noop_guards kpRun State.work).2.2.2.1 (by decide) (by decide),
   (claim_C7_noop_guards kpFresh State.work).2.2.2.2 (by decide) State.shortBreak⟩

/-- C1 counterexample: a running, non-paused keeper in `LongBreak` on which
`ForceBreak(ShortBreak)` is not a no-op — the state becomes `ShortBreak`
(the code checks running and paused but never the current state). -/
theorem claim_C1_counterexample :
    kpLong.running = true ∧ kpLong.paused = false ∧
    kpLong.state = State.longBreak ∧
    (kpLong.forceBreak State.shortBreak).fst.state = State.shortBreak ∧
    State.shortBreak ≠ State.longBreak := by decide

/-- C1 amended: `ForceBreak` requires only running-and-not-paused, not the
`Work` state: from any such keeper `ForceBreak(LongBreak)` enters `LongBreak`
with `remaining` equal to the configured long duration and both countdowns
reset, and `ForceBreak(ShortBreak)` enters `ShortBreak` with `remaining`
equal to the short duration — in particular a short break can be forced
during a long break. -/
theorem claim_C1_forceBreak (kp : TimeKeeper)
    (h1 : kp.running = true) (h2 : kp.paused = false) :
    ((kp.forceBreak State.longBreak).fst.state = State.longBreak ∧
     (kp.forceBreak State.longBreak).fst.remaining = kp.config.long.duration ∧
     (kp.forceBreak State.longBreak).fst.nextShort = kp.config.short.interval ∧
     (kp.forceBreak State.longBreak).fst.nextLong = kp.config.long.interval) ∧
    ((kp.forceBreak State.shortBreak).fst.state = State.shortBreak ∧
     (kp.forceBreak State.shortBreak).fst.remaining = kp.config.short.duration) := by
  simp [TimeKeeper.forceBreak, TimeKeeper.enterBreak, TimeKeeper.resetWorkTimers, h1, h2]

/-- C1 witness: the amended behaviour at a concrete keeper in `LongBreak`. -/
theorem claim_C1_forceBreak_witness :
    ((kpLong.forceBreak State.longBreak).fst.state = State.longBreak ∧
     (kpLong.forceBreak State.longBreak).fst.remaining = kpLong.config.long.duration ∧
     (kpLong.forceBreak State.longBreak).fst.nextShort = kpLong.config.short.interval ∧
     (kpLong.forceBreak State.longBreak).fst.nextLong = kpLong.config.long.interval) ∧
    ((kpLong.forceBreak State.shortBreak).fst.state = State.shortBreak ∧
     (kpLong.forceBreak State.shortBreak).fst.remaining =
       kpLong.config.short.duration) :=
  claim_C1_forceBreak kpLong (by decide) (by decide)

/-- C2 counterexample: a keeper in a strict `LongBreak` on which `SkipBreak`
does end the break — the state becomes `Work` and a state-change event is
emitted; the code never consults `StrictMode` in `SkipBreak`. -/
theorem claim_C2_counterexample :
    kpStrictLong.state = State.longBreak ∧
    kpStrictLong.config.long.strictMode = true ∧
    (kpStrictLong.skipBreak).fst.state = State.work ∧
    (kpStrictLong.skipBreak).snd ≠ [] := by decide

/-- C2 amended: strict mode is only reported to observers via the
`StrictMode` flag on events; the scheduler's `SkipBreak` ends a strict long
break like any other — state becomes `Work`, `remaining` 0, both countdowns
reset, one state-change event emitted. -/
theorem claim_C2_skipBreak_ignores_strict (kp : TimeKeeper)
    (h1 : kp.state = State.longBreak) (h2 : kp.config.long.strictMode = true) :
    (kp.skipBreak).fst.state = State.work ∧
    (kp.skipBreak).fst.remaining = 0 ∧
    (kp.skipBreak).fst.nextShort = kp.config.short.interval ∧
    (kp.skipBreak).fst.nextLong = kp.config.long.interval ∧
    (kp.skipBreak).snd = [{ type := EventType.stateChange, state := State.work }] := by
  simp [TimeKeeper.skipBreak, TimeKeeper.resetWorkTimers, h1]

/-- C2 witness: the amended behaviour at a concrete strict long break. -/
theorem claim_C2_skipBreak_ignores_strict_witness :
    (kpStrictLong.skipBreak).fst.state = State.work ∧
    (kpStrictLong.skipBreak).fst.remaining = 0 ∧
    (kpStrictLong.skipBreak).fst.nextShort = kpStrictLong.config.short.interval ∧
    (kpStrictLong.skipBreak).fst.nextLong = kpStrictLong.config.long.interval ∧
    (kpStrictLong.skipBreak).snd =
      [{ type := EventType.stateChange, state := State.work }] :=
  claim_C2_skipBreak_ignores_strict kpStrictLong (by decide) (by decide)

/-- C5 counterexample: on an already-paused keeper, `Pause` then `Resume`
does not restore the pre-`Pause` state — the keeper leaves `Paused`, so the
round-trip is not the identity for every scheduler state. -/
theorem claim_C5_counterexample :
    kpPausedW.state = State.paused ∧
    ((kpPausedW.pause).fst.resume).fst.state ≠ kpPausedW.state := by decide

/-- C5 amended: `Pause` then `Resume` with no ticks in between always leaves
`remaining`, `nextShort` and `nextLong` unchanged, and whenever the keeper
was not already paused it also restores the state exactly, leaves running
and paused unchanged, and `Resume` emits one state-change event for the
restored state. -/
theorem claim_C5_pause_resume (kp : TimeKeeper) :
    ((kp.pause).fst.resume).fst.remaining = kp.remaining ∧
    ((kp.pause).fst.resume).fst.nextShort = kp.nextShort ∧
    ((kp.pause).fst.resume).fst.nextLong = kp.nextLong ∧
    (kp.paused = false →
      ((kp.pause).fst.resume).fst.state = kp.state ∧
      ((kp.pause).fst.resume).fst.paused = false ∧
      ((kp.pause).fst.resume).fst.running = kp.running ∧
      ((kp.pause).fst.resume).snd =
        [{ type := EventType.stateChange, state := kp.state }]) := by
  by_cases h : kp.paused = true
  · simp [TimeKeeper.pause, TimeKeeper.resume, h]
  · simp only [Bool.not_eq_true] at h
    simp [TimeKeeper.pause, TimeKeeper.resume, h]

/-- C3: on a Work tick with both breaks enabled whose long-break countdown
crosses zero, the keeper enters `LongBreak` with `remaining` equal to the
long duration and both countdowns reset to their configured intervals — with
no assumption on where the short countdown stands, since the long-break check
returns before the short one is examined. -/
theorem claim_C3_long_break_priority (kp : TimeKeeper) (now : Int)
    (h1 : kp.running = true) (h2 : kp.paused = false) (h3 : kp.state = State.work)
    (h4 : kp.config.short.enabled = true) (h5 : kp.config.long.enabled = true)
    (h6 : kp.nextLong - kp.tickInterval ≤ 0) :
    (kp.tick none now).fst.state = State.longBreak ∧
    (kp.tick none now).fst.remaining = kp.config.long.duration ∧
    (kp.tick none now).fst.nextShort = kp.config.short.interval ∧
    (kp.tick none now).fst.nextLong = kp.config.long.interval := by
  simp only [TimeKeeper.tick, handleIdleCheck_none, h1, h2, h3]
  simp only [TimeKeeper.advanceWork, h5, if_pos rfl]
  simp [TimeKeeper.enterBreak, TimeKeeper.resetWorkTimers, h6]

/-- C3 witness: the long break fires on the first tick of `kpEdge` even
though the short countdown (5) is larger than the tick. -/
theorem claim_C3_long_break_priority_witness :
    (kpEdge.tick none 1).fst.state = State.longBreak ∧
    (kpEdge.tick none 1).fst.remaining = kpEdge.config.long.duration ∧
    (kpEdge.tick none 1).fst.nextShort = kpEdge.config.short.interval ∧
    (kpEdge.tick none 1).fst.nextLong = kpEdge.config.long.interval :=
  claim_C3_long_break_priority kpEdge 1 (by decide) (by decide) (by decide)
    (by decide) (by decide) (by decide)

/-- C9: on a break tick with time left, the single emitted progress event
carries exactly the spec's fraction `(duration - remaining)/duration`
clamped to `[0,1]` (`1` when the duration is non-positive), together with
the strict-mode flag; the fraction is never negative, never above one, and
exactly one for a non-positive duration. -/
theorem claim_C9_break_fraction (kp : TimeKeeper)
    (checker : Option (Nat → IdleResult)) (now : Int)
    (h1 : kp.running = true) (h2 : kp.paused = false)
    (h3 : kp.state = State.shortBreak ∨ kp.state = State.longBreak)
    (h4 : 0 < kp.remaining - kp.tickInterval) :
    (kp.tick checker now).snd =
      [{ type := EventType.progress, state := kp.state,
         remaining := kp.remaining - kp.tickInterval,
         progress := clampedFraction kp.breakDuration (kp.remaining - kp.tickInterval),
         strictMode := if kp.state = State.longBreak then kp.config.long.strictMode
                       else false }] ∧
    0 ≤ clampedFraction kp.breakDuration (kp.remaining - kp.tickInterval) ∧
    clampedFraction kp.breakDuration (kp.remaining - kp.tickInterval) ≤ 1 ∧
    (kp.breakDuration ≤ 0 →
      clampedFraction kp.breakDuration (kp.remaining - kp.tickInterval) = 1) := by
  have hw : ¬kp.state = State.work := by
    rcases h3 with h | h <;> simp [h]
  refine ⟨?_, clampedFraction_nonneg _ _, clampedFraction_le_one _ _,
    fun h => clampedFraction_of_nonpos _ _ h⟩
  simp only [TimeKeeper.tick, h1, h2, hw, TimeKeeper.advanceBreak,
    if_pos h4, if_neg hw]
  rcases h3 with h | h <;>
    simp [breakProgress_eq_clampedFraction, TimeKeeper.breakDuration, h]

/-- C9 witness: the fraction on a concrete short-break tick. -/
theorem claim_C9_break_fraction_witness :
    (kpShortB.tick none 2).snd =
      [{ type := EventType.progress, state := kpShortB.state,
         remaining := kpShortB.remaining - kpShortB.tickInterval,
         progress := clampedFraction kpShortB.breakDuration
           (kpShortB.remaining - kpShortB.tickInterval),
         strictMode := if kpShortB.state = State.longBreak then
             kpShortB.config.long.strictMode
           else false }] ∧
    0 ≤ clampedFraction kpShortB.breakDuration
        (kpShortB.remaining - kpShortB.tickInterval) ∧
    clampedFraction kpShortB.breakDuration
        (kpShortB.remaining - kpShortB.tickInterval) ≤ 1 ∧
    (kpShortB.breakDuration ≤ 0 →
      clampedFraction kpShortB.breakDuration
          (kpShortB.remaining - kpShortB.tickInterval) = 1) :=
  claim_C9_break_fraction kpShortB none 2 (by decide) (by decide) (by decide)
    (by decide)

/-- C6 counterexample: under `cfgNear` the short break (countdown 2 of
interval 3) is strictly nearer than the long one (countdown 99 of interval
100), yet the emitted progress fraction is `1/100` — computed against the
long interval, not against the interval of the nearer enabled break
(`1/3`). -/
theorem claim_C6_counterexample :
    (kpNear.tick none 5).snd =
      [{ type := EventType.progress, state := State.work, remaining := 2,
         progress := 1/100 }] ∧
    (1/100 : Rat) ≠ ((3 - 2 : Int) : Rat) / ((3 : Int) : Rat) := by
  have hkp : kpNear =
      { config := cfgNear, tickInterval := 1, state := State.work,
        previousState := State.work, remaining := 0, nextShort := 3,
        nextLong := 100, lastIdleCheck := none, running := true, paused := false,
        lastProgressSent := none, idleCalls := 0 } := by decide
  refine ⟨?_, by norm_num⟩
  rw [hkp]
  simp [TimeKeeper.tick, TimeKeeper.handleIdleCheck, TimeKeeper.advanceWork,
    TimeKeeper.advanceShort, TimeKeeper.maybeEmitProgress, TimeKeeper.progressDue,
    TimeKeeper.nextBreakRemaining, TimeKeeper.workProgress, cfgNear]

/-- C6 amended: on a Work tick where no enabled break fires, the emission
throttle allows, and the idle check does not intervene (idle reset disabled
or already latched off): the progress event's remaining time is the smaller
of the two countdowns when both breaks are enabled; the short countdown when
only the short break is enabled; and with only the long break enabled it is
`nextLong` when that is strictly below the (undecremented) `nextShort`,
otherwise `0`. The fraction is computed against the long interval whenever
the long break is enabled with a positive interval — regardless of which
break is nearer — and against the short interval (when positive) when only
the short break is enabled. -/
theorem claim_C6_progress_event (kp : TimeKeeper)
    (checker : Option (Nat → IdleResult)) (now : Int)
    (h1 : kp.running = true) (h2 : kp.paused = false) (h3 : kp.state = State.work)
    (h6 : 0 < kp.nextLong - kp.tickInterval) (h7 : 0 < kp.nextShort - kp.tickInterval)
    (h8 : kp.lastProgressSent = none)
    (hc : kp.config.idleResetEnabled = false) :
    (kp.config.short.enabled = true → kp.config.long.enabled = true →
      0 < kp.config.long.interval →
      (kp.tick checker now).snd =
        [{ type := EventType.progress, state := State.work,
           remaining :=
             min (kp.nextLong - kp.tickInterval) (kp.nextShort - kp.tickInterval),
           progress :=
             ((kp.config.long.interval -
                 (kp.nextLong - kp.tickInterval) : Int) : Rat) /
               ((kp.config.long.interval : Int) : Rat) }]) ∧
    (kp.config.short.enabled = true → kp.config.long.enabled = false →
      0 < kp.config.short.interval →
      (kp.tick checker now).snd =
        [{ type := EventType.progress, state := State.work,
           remaining := kp.nextShort - kp.tickInterval,
           progress :=
             ((kp.config.short.interval -
                 (kp.nextShort - kp.tickInterval) : Int) : Rat) /
               ((kp.config.short.interval : Int) : Rat) }]) ∧
    (kp.config.long.enabled = true → kp.config.short.enabled = false →
      0 < kp.config.long.interval →
      (kp.tick checker now).snd =
        [{ type := EventType.progress, state := State.work,
           remaining :=
             if kp.nextLong - kp.tickInterval < kp.nextShort then
               kp.nextLong - kp.tickInterval
             else 0,
           progress :=
             ((kp.config.long.interval -
                 (kp.nextLong - kp.tickInterval) : Int) : Rat) /
               ((kp.config.long.interval : Int) : Rat) }]) := by
  have h6n := not_le.mpr h6
  have h7n := not_le.mpr h7
  refine ⟨fun h4 h5 h9 => ?_, fun h4 h5 h9 => ?_, fun h5 h4 h9 => ?_⟩
  · simp only [TimeKeeper.tick, h1, h2, h3, handleIdleCheck_latched kp checker now hc]
    simp only [TimeKeeper.advanceWork, TimeKeeper.advanceShort, h4, h5]
    simp only [TimeKeeper.maybeEmitProgress, TimeKeeper.progressDue,
      TimeKeeper.nextBreakRemaining, TimeKeeper.workProgress, h8]
    rcases lt_or_le (kp.nextLong - kp.tickInterval) (kp.nextShort - kp.tickInterval)
      with hlt | hle
    · simp [h4, h5, h6n, h7n, h8, h9, hlt, min_eq_left hlt.le, h3]
    · simp [h4, h5, h6n, h7n, h8, h9, not_lt.mpr hle, min_eq_right hle, h3]
  · simp only [TimeKeeper.tick, h1, h2, h3, handleIdleCheck_latched kp checker now hc]
    simp only [TimeKeeper.advanceWork, TimeKeeper.advanceShort, h4, h5]
    simp only [TimeKeeper.maybeEmitProgress, TimeKeeper.progressDue,
      TimeKeeper.nextBreakRemaining, TimeKeeper.workProgress, h8]
    simp [h4, h5, h7n, h8, h9, h3]
  · simp only [TimeKeeper.tick, h1, h2, h3, handleIdleCheck_latched kp checker now hc]
    simp only [TimeKeeper.advanceWork, TimeKeeper.advanceShort, h4, h5]
    simp only [TimeKeeper.maybeEmitProgress, TimeKeeper.progressDue,
      TimeKeeper.nextBreakRemaining, TimeKeeper.workProgress, h8]
    rcases lt_or_le (kp.nextLong - kp.tickInterval) kp.nextShort with hlt | hle
    · simp [h4, h5, h6n, h8, h9, hlt, h3]
    · simp [h4, h5, h6n, h8, h9, not_lt.mpr hle, h3]

/-- C6 witness: every configuration branch discharged — both breaks enabled
at `kpNear`, only the short break at `kpShortOnly`, only the long break at
`kpLongOnly` (where the emitted remaining value is 0 because the frozen
`nextShort` is below the long countdown). -/
theorem claim_C6_progress_event_witness :
    (kpNear.tick none 5).snd =
      [{ type := EventType.progress, state := State.work,
         remaining :=
           min (kpNear.nextLong - kpNear.tickInterval)
             (kpNear.nextShort - kpNear.tickInterval),
         progress :=
           ((kpNear.config.long.interval -
               (kpNear.nextLong - kpNear.tickInterval) : Int) : Rat) /
             ((kpNear.config.long.interval : Int) : Rat) }] ∧
    (kpShortOnly.tick none 5).snd =
      [{ type := EventType.progress, state := State.work,
         remaining := kpShortOnly.nextShort - kpShortOnly.tickInterval,
         progress :=
           ((kpShortOnly.config.short.interval -
               (kpShortOnly.nextShort - kpShortOnly.tickInterval) : Int) : Rat) /
             ((kpShortOnly.config.short.interval : Int) : Rat) }] ∧
    (kpLongOnly.tick none 5).snd =
      [{ type := EventType.progress, state := State.work,
         remaining :=
           if kpLongOnly.nextLong - kpLongOnly.tickInterval <
               kpLongOnly.nextShort then
             kpLongOnly.nextLong - kpLongOnly.tickInterval
           else 0,
         progress :=
           ((kpLongOnly.config.long.interval -
               (kpLongOnly.nextLong - kpLongOnly.tickInterval) : Int) : Rat) /
             ((kpLongOnly.config.long.interval : Int) : Rat) }] :=
  ⟨(claim_C6_progress_event kpNear none 5 (by decide) (by decide) (by decide)
      (by decide) (by decide) (by decide) (by decide)).1
    (by decide) (by decide) (by decide),
   (claim_C6_progress_event kpShortOnly none 5 (by decide) (by decide) (by decide)
      (by decide) (by decide) (by decide) (by decide)).2.1
    (by decide) (by decide) (by decide),
   (claim_C6_progress_event kpLongOnly none 5 (by decide) (by decide) (by decide)
      (by decide) (by decide) (by decide) (by decide)).2.2
    (by decide) (by decide) (by decide)⟩

/-- C5 witness: the round-trip at a concrete running keeper, with the
not-already-paused hypothesis discharged. -/
theorem claim_C5_pause_resume_witness :
    ((kpRun.pause).fst.resume).fst.remaining = kpRun.remaining ∧
    ((kpRun.pause).fst.resume).fst.nextShort = kpRun.nextShort ∧
    ((kpRun.pause).fst.resume).fst.nextLong = kpRun.nextLong ∧
    ((kpRun.pause).fst.resume).fst.state = kpRun.state ∧
    ((kpRun.pause).fst.resume).fst.paused = false ∧
    ((kpRun.pause).fst.resume).fst.running = kpRun.running ∧
    ((kpRun.pause).fst.resume).snd =
      [{ type := EventType.stateChange, state := kpRun.state }] := by
  have h := claim_C5_pause_resume kpRun
  have h4 := h.2.2.2 (by decide)
  exact ⟨h.1, h.2.1, h.2.2.1, h4.1, h4.2.1, h4.2.2.1, h4.2.2.2⟩

/-- `advanceWorkLocked` keeps `remaining` non-negative when the configured
durations are. -/
lemma advanceWork_remaining_nonneg (kp : TimeKeeper) (d : Int)
    (hd1 : 0 ≤ kp.config.short.duration) (hd2 : 0 ≤ kp.config.long.duration)
    (hr : 0 ≤ kp.remaining) :
    0 ≤ (kp.advanceWork d).fst.remaining := by
  simp only [TimeKeeper.advanceWork, TimeKeeper.advanceShort]
  repeat' split
  all_goals simp_all [enterBreak_remaining]

/-- C8 counterexample: on a paused keeper `UpdateConfig` with a smaller
short interval strictly decreases `nextShort` while the state stays
`Paused`, refuting "nextShort never decreases while Paused" for the full
operation set. -/
theorem claim_C8_counterexample :
    kpPausedW.paused = true ∧ kpPausedW.state = State.paused ∧
    (kpPausedW.updateConfig cfgSmall).fst.nextShort < kpPausedW.nextShort ∧
    (kpPausedW.updateConfig cfgSmall).fst.state = State.paused := by decide

/-- C8 amended: with non-negative configured durations, every command keeps
`remaining ≥ 0`; a tick delivered while paused changes nothing at all; and
while the keeper sits in `Paused`, no command other than `UpdateConfig`
(which re-seeds the countdowns from the new intervals) and `Start` (which
begins a fresh session) decreases `nextShort`, `nextLong` or `remaining` —
the countdown bounds `nextShort ≤ shortInterval`, `nextLong ≤ longInterval`
hold for every keeper reached through the API. -/
theorem claim_C8_invariants (kp : TimeKeeper)
    (checker : Option (Nat → IdleResult)) (cmd : Command) :
    (0 ≤ kp.config.short.duration → 0 ≤ kp.config.long.duration →
      0 ≤ kp.remaining → 0 ≤ (kp.step checker cmd).fst.remaining) ∧
    (kp.paused = true → ∀ now, kp.tick checker now = (kp, [])) ∧
    (kp.paused = true → kp.state = State.paused →
      kp.nextShort ≤ kp.config.short.interval →
      kp.nextLong ≤ kp.config.long.interval →
      cmd.isUpdateConfig = false → cmd.isStartCmd = false →
      kp.nextShort ≤ (kp.step checker cmd).fst.nextShort ∧
      kp.nextLong ≤ (kp.step checker cmd).fst.nextLong ∧
      kp.remaining ≤ (kp.step checker cmd).fst.remaining) := by
  refine ⟨fun hd1 hd2 hr => ?_, fun hp now => by simp [TimeKeeper.tick, hp],
    fun hp hs hns hnl hu hst => ?_⟩
  · cases cmd with
    | tickAt now =>
      simp only [TimeKeeper.step]
      by_cases hg : kp.running = false ∨ kp.paused = true
      · simp [TimeKeeper.tick, hg, hr]
      · by_cases hw : kp.state = State.work
        · simp only [TimeKeeper.tick, if_neg hg, if_pos hw,
            maybeEmitProgress_remaining]
          exact advanceWork_remaining_nonneg _ _ (by simp [hd1]) (by simp [hd2])
            (by simp [hr])
        · simp only [TimeKeeper.tick, if_neg hg, if_neg hw]
          exact advanceBreak_remaining_nonneg _ _
    | pauseCmd =>
      simp only [TimeKeeper.step, TimeKeeper.pause]
      split <;> simpa using hr
    | resumeCmd =>
      simp only [TimeKeeper.step, TimeKeeper.resume]
      split <;> simpa using hr
    | skipBreakCmd =>
      simp only [TimeKeeper.step, TimeKeeper.skipBreak]
      split
      · simpa using hr
      · simp [TimeKeeper.resetWorkTimers]
    | forceBreakCmd s =>
      simp only [TimeKeeper.step, TimeKeeper.forceBreak]
      repeat' split
      · simpa using hr
      · simpa using hr
      · rw [enterBreak_remaining]
        split <;> assumption
    | resetForIdleCmd =>
      simpa [TimeKeeper.step, TimeKeeper.resetForIdle, TimeKeeper.resetWorkTimers]
        using hr
    | startCmd =>
      simp only [TimeKeeper.step, TimeKeeper.start]
      split
      · simpa using hr
      · simp
    | stopCmd =>
      simp only [TimeKeeper.step, TimeKeeper.stop]
      split <;> simpa using hr
    | updateConfigCmd c =>
      simpa [TimeKeeper.step, TimeKeeper.updateConfig, TimeKeeper.resetWorkTimers]
        using hr
  · cases cmd with
    | tickAt now => simp [TimeKeeper.step, TimeKeeper.tick, hp]
    | pauseCmd => simp [TimeKeeper.step, TimeKeeper.pause, hp]
    | resumeCmd => simp [TimeKeeper.step, TimeKeeper.resume, hp]
    | skipBreakCmd => simp [TimeKeeper.step, TimeKeeper.skipBreak, hs]
    | forceBreakCmd s =>
      simp only [TimeKeeper.step, TimeKeeper.forceBreak]
      split
      · simp
      · rw [if_pos (Or.inr hp)]
        simp
    | resetForIdleCmd =>
      simp [TimeKeeper.step, TimeKeeper.resetForIdle, TimeKeeper.resetWorkTimers,
        hns, hnl]
    | startCmd => simp [Command.isStartCmd] at hst
    | stopCmd =>
      simp only [TimeKeeper.step, TimeKeeper.stop]
      split <;> simp
    | updateConfigCmd c => simp [Command.isUpdateConfig] at hu

/-- C8 witness: all three parts discharged at a concrete paused keeper with
the `ResetForIdle` command. -/
theorem claim_C8_invariants_witness :
    0 ≤ (kpPausedW.step none Command.resetForIdleCmd).fst.remaining ∧
    kpPausedW.tick none 7 = (kpPausedW, []) ∧
    (kpPausedW.nextShort ≤
        (kpPausedW.step none Command.resetForIdleCmd).fst.nextShort ∧
      kpPausedW.nextLong ≤
        (kpPausedW.step none Command.resetForIdleCmd).fst.nextLong ∧
      kpPausedW.remaining ≤
        (kpPausedW.step none Command.resetForIdleCmd).fst.remaining) :=
  ⟨(claim_C8_invariants kpPausedW none Command.resetForIdleCmd).1 (by decide)
     (by decide) (by decide),
   (claim_C8_invariants kpPausedW none Command.resetForIdleCmd).2.1 (by decide) 7,
   (claim_C8_invariants kpPausedW none Command.resetForIdleCmd).2.2 (by decide)
     (by decide) (by decide) (by decide) (by decide) (by decide)⟩

/-- Once idle reset is latched off, a tick keeps it off, performs no idle
query and emits no idle-error event. -/
lemma tick_latched (kp : TimeKeeper) (checker : Option (Nat → IdleResult))
    (now : Int) (h : kp.config.idleResetEnabled = false) :
    (kp.tick checker now).fst.config.idleResetEnabled = false ∧
    (kp.tick checker now).fst.idleCalls = kp.idleCalls ∧
    ∀ e ∈ (kp.tick checker now).snd, e.type ≠ EventType.idleError := by
  by_cases hg : kp.running = false ∨ kp.paused = true
  · simp [TimeKeeper.tick, hg, h]
  · by_cases hw : kp.state = State.work
    · simp only [TimeKeeper.tick, if_neg hg, if_pos hw,
        handleIdleCheck_latched kp checker now h]
      refine ⟨by simp [h], by simp, fun e he => ?_⟩
      simp only [List.nil_append, List.mem_append] at he
      rcases he with he | he
      · have := advanceWork_snd_types _ _ e he
        simp [this]
      · have := maybeEmitProgress_snd_types _ _ e he
        simp [this]
    · simp only [TimeKeeper.tick, if_neg hg, if_neg hw]
      refine ⟨by simp [h], by simp, fun e he => ?_⟩
      rcases advanceBreak_snd_types _ _ e he with h1 | h1 <;> simp [h1]

/-- Once idle reset is latched off, any command other than `UpdateConfig`
keeps it off, performs no idle query and emits no idle-error event. -/
lemma step_latched (kp : TimeKeeper) (checker : Option (Nat → IdleResult))
    (cmd : Command) (hu : cmd.isUpdateConfig = false)
    (h : kp.config.idleResetEnabled = false) :
    (kp.step checker cmd).fst.config.idleResetEnabled = false ∧
    (kp.step checker cmd).fst.idleCalls = kp.idleCalls ∧
    ∀ e ∈ (kp.step checker cmd).snd, e.type ≠ EventType.idleError := by
  cases cmd with
  | tickAt now => exact tick_latched kp checker now h
  | pauseCmd =>
    simp only [TimeKeeper.step, TimeKeeper.pause]
    split <;> simp [h]
  | resumeCmd =>
    simp only [TimeKeeper.step, TimeKeeper.resume]
    split <;> simp [h]
  | skipBreakCmd =>
    simp only [TimeKeeper.step, TimeKeeper.skipBreak]
    split <;> simp [h, TimeKeeper.resetWorkTimers]
  | forceBreakCmd s =>
    simp only [TimeKeeper.step, TimeKeeper.forceBreak]
    repeat' split
    · simp [h]
    · simp [h]
    · exact ⟨by simp [h], by simp, fun e he => by
        have := enterBreak_snd_types _ _ e he
        simp [this]⟩
  | resetForIdleCmd =>
    simp [TimeKeeper.step, TimeKeeper.resetForIdle, TimeKeeper.resetWorkTimers, h]
  | startCmd =>
    simp only [TimeKeeper.step, TimeKeeper.start]
    split <;> simp [h]
  | stopCmd =>
    simp only [TimeKeeper.step, TimeKeeper.stop]
    split <;> simp [h]
  | updateConfigCmd c => simp [Command.isUpdateConfig] at hu

/-- The latch propagates along any `UpdateConfig`-free command sequence:
no further idle queries, no further idle-error events. -/
lemma runCmds_latched (checker : Option (Nat → IdleResult)) (cs : List Command) :
    ∀ kp : TimeKeeper, (∀ c ∈ cs, c.isUpdateConfig = false) →
    kp.config.idleResetEnabled = false →
    (kp.runCmds checker cs).fst.config.idleResetEnabled = false ∧
    (kp.runCmds checker cs).fst.idleCalls = kp.idleCalls ∧
    countIdleErrors (kp.runCmds checker cs).snd = 0 := by
  induction cs with
  | nil =>
    intro kp _ h
    simp [TimeKeeper.runCmds, countIdleErrors, h]
  | cons c cs ih =>
    intro kp hcs h
    have hc := hcs c (List.mem_cons_self c cs)
    have hstep := step_latched kp checker c hc h
    have hrest := ih (kp.step checker c).fst
      (fun d hd => hcs d (List.mem_cons_of_mem c hd)) hstep.1
    simp only [TimeKeeper.runCmds]
    refine ⟨hrest.1, by rw [hrest.2.1, hstep.2.1], ?_⟩
    unfold countIdleErrors
    rw [List.countP_append]
    have h0 : (kp.step checker c).snd.countP
        (fun e => decide (e.type = EventType.idleError)) = 0 :=
      List.countP_eq_zero.mpr (fun e he => by simpa using hstep.2.2 e he)
    have h1 := hrest.2.2
    unfold countIdleErrors at h1
    rw [h0, h1]

/-- A Work tick on which the idle query reports the permanent unsupported
failure latches idle reset off, counts exactly one query, and emits exactly
one idle-error event. -/
lemma tick_unsupported_first (kp : TimeKeeper) (f : Nat → IdleResult) (now : Int)
    (h1 : kp.running = true) (h2 : kp.paused = false) (h3 : kp.state = State.work)
    (h4 : kp.config.idleResetEnabled = true) (h5 : kp.lastIdleCheck = none)
    (hf : f kp.idleCalls = IdleResult.errUnsupported) :
    (kp.tick (some f) now).fst.config.idleResetEnabled = false ∧
    (kp.tick (some f) now).fst.idleCalls = kp.idleCalls + 1 ∧
    countIdleErrors (kp.tick (some f) now).snd = 1 := by
  have hh : kp.handleIdleCheck (some f) now =
      ({ kp with config := { kp.config with idleResetEnabled := false },
                 lastIdleCheck := some now, idleCalls := kp.idleCalls + 1 },
       [{ type := EventType.idleError, state := kp.state,
          message := "idle detection unsupported" }]) := by
    simp [TimeKeeper.handleIdleCheck, h4, TimeKeeper.idleCheckDue, h5, hf]
  have hguard : ¬(kp.running = false ∨ kp.paused = true) := by simp [h1, h2]
  simp only [TimeKeeper.tick, if_neg hguard, if_pos h3, hh]
  refine ⟨by simp, by simp, ?_⟩
  unfold countIdleErrors
  rw [List.countP_append, List.countP_append]
  have hw : List.countP (fun e => decide (e.type = EventType.idleError))
      [({ type := EventType.idleError, state := kp.state,
          message := "idle detection unsupported" } : Event)] = 1 := rfl
  have ha : ∀ (kq : TimeKeeper) (d : Int),
      (kq.advanceWork d).snd.countP
        (fun e => decide (e.type = EventType.idleError)) = 0 :=
    fun kq d => List.countP_eq_zero.mpr
      (fun e he => by simp [advanceWork_snd_types kq d e he])
  have hm : ∀ (kq : TimeKeeper) (t : Int),
      (kq.maybeEmitProgress t).snd.countP
        (fun e => decide (e.type = EventType.idleError)) = 0 :=
    fun kq t => List.countP_eq_zero.mpr
      (fun e he => by simp [maybeEmitProgress_snd_types kq t e he])
  rw [hw, ha, hm]

/-- C4: when the idle query reports the permanent unsupported failure on the
first invocation of a run (a started Work keeper that has never polled) and
no `UpdateConfig` follows, the whole run emits exactly one idle-error event,
the idle query is invoked exactly once in total, and the internal
configuration keeps idle reset latched off. -/
theorem claim_C4_unsupported_latch (kp : TimeKeeper) (f : Nat → IdleResult)
    (t : Int) (cs : List Command)
    (h1 : kp.running = true) (h2 : kp.paused = false) (h3 : kp.state = State.work)
    (h4 : kp.config.idleResetEnabled = true) (h5 : kp.lastIdleCheck = none)
    (h6 : kp.idleCalls = 0) (hf : f 0 = IdleResult.errUnsupported)
    (hcs : ∀ c ∈ cs, c.isUpdateConfig = false) :
    countIdleErrors (kp.runCmds (some f) (Command.tickAt t :: cs)).snd = 1 ∧
    (kp.runCmds (some f) (Command.tickAt t :: cs)).fst.idleCalls = 1 ∧
    (kp.runCmds (some f)
        (Command.tickAt t :: cs)).fst.config.idleResetEnabled = false := by
  have hf0 : f kp.idleCalls = IdleResult.errUnsupported := by rw [h6]; exact hf
  have hfirst := tick_unsupported_first kp f t h1 h2 h3 h4 h5 hf0
  have hrest := runCmds_latched (some f) cs (kp.tick (some f) t).fst hcs hfirst.1
  simp only [TimeKeeper.runCmds, TimeKeeper.step]
  refine ⟨?_, ?_, hrest.1⟩
  · unfold countIdleErrors
    rw [List.countP_append]
    have ha := hfirst.2.2
    have hb := hrest.2.2
    unfold countIdleErrors at ha hb
    rw [ha, hb]
  · rw [hrest.2.1, hfirst.2.1, h6]

/-- C4 witness: a concrete run — first tick hits the unsupported checker,
then more ticks and a pause/resume — yields one idle-error, one query, and
a latched-off idle reset. -/
theorem claim_C4_unsupported_latch_witness :
    countIdleErrors (kpIdle.runCmds (some alwaysUnsupported)
      (Command.tickAt 1 :: [Command.tickAt 2, Command.pauseCmd,
        Command.resumeCmd, Command.tickAt 3])).snd = 1 ∧
    (kpIdle.runCmds (some alwaysUnsupported)
      (Command.tickAt 1 :: [Command.tickAt 2, Command.pauseCmd,
        Command.resumeCmd, Command.tickAt 3])).fst.idleCalls = 1 ∧
    (kpIdle.runCmds (some alwaysUnsupported)
      (Command.tickAt 1 :: [Command.tickAt 2, Command.pauseCmd,
        Command.resumeCmd,
        Command.tickAt 3])).fst.config.idleResetEnabled = false :=
  claim_C4_unsupported_latch kpIdle alwaysUnsupported 1
    [Command.tickAt 2, Command.pauseCmd, Command.resumeCmd, Command.tickAt 3]
    (by decide) (by decide) (by decide) (by decide) (by decide) (by decide) rfl
    (by decide)

end EagleEye
